import Mathlib

/-!
Verification development for the rabbitmq session layer of the repository
(src/rabbitmq/session.go, containing the `Session` orchestrator and the
auto-reconnecting `Connection` wrapper).

The Go code is shallowly embedded as pure Lean functions.  External broker
behaviour (what `amqp.Dial`, `Connection.Channel`, declaring topology and
publishing return) is supplied through explicit oracle values carried by the
transport / channel handles, so every operation is a deterministic function of
the program state and those oracles.  Side effects that matter to the
specification (broker I/O, handler invocation, negative acknowledgement,
closing the transport) are collected in an explicit `Effect` trace.

Go maps are embedded as association lists with replace-on-insert semantics
(the keys of interest are only ever looked up, never iterated, so the
association-list order is irrelevant).  A Go `nil` pointer is `Option.none`;
calling a method through a `nil` pointer, or a field access on one, is the
`Outcome.panicked` result.
-/

/-- Result of a fallible external call (Go's `(value, error)` pair). -/
inductive Res (ε α : Type) where
  | ok (a : α)
  | err (e : ε)
deriving DecidableEq

/-- Result of running an embedded operation: normal value, returned error, or a
Go runtime panic (nil-pointer dereference / failed type assertion). -/
inductive Outcome (ε α : Type) where
  | ok (a : α)
  | err (e : ε)
  | panicked
deriving DecidableEq

/-- Lookup in an association list embedding a Go map. -/
def mapLookup {κ α : Type} [DecidableEq κ] (k : κ) : List (κ × α) → Option α
  | [] => none
  | (k', v) :: rest => if k' = k then some v else mapLookup k rest

/-- Insert-or-replace in an association list embedding a Go map
(`m[k] = v` replaces any previous binding of `k`). -/
def mapInsert {κ α : Type} [DecidableEq κ] (k : κ) (v : α) : List (κ × α) → List (κ × α)
  | [] => [(k, v)]
  | (k', v') :: rest => if k' = k then (k, v) :: rest else (k', v') :: mapInsert k v rest

/-- Modelled from the spec: the repository files declaring `Declaration` and the
`AutoExchange`, `AutoQueue`, `AutoBinding` helpers are not under src/
(session.go only calls them).  The spec describes a Declaration as "a named,
idempotent unit of topology setup (declare exchange / declare queue / bind
queue to exchange) expressed as a function of a channel handle".  The three
shapes are modelled symbolically; what a declaration returns on a channel
handle is resolved by that handle (`AmqpChannel.declResult`).  Argument order
follows the call sites in session.go: `AutoBinding(routingKey, queueName,
exchangeName)`. -/
inductive Declaration where
  | AutoExchange (name : String)
  | AutoQueue (name : String)
  | AutoBinding (routingKey queueName exchangeName : String)
deriving DecidableEq

/-- Modelled from the spec: the repository file declaring the `Subscriber`
handler type is not under src/.  A handler is an opaque callback invoked with a
delivery; it is modelled as an abstract identifier so registration and
invocation can be tracked. -/
abbrev Subscriber := Nat

/-- One message instance received from a queue (amqp.Delivery, restricted to
the fields the embedded code reads). -/
structure Delivery where
  routingKey : String
  body : List Nat
  deliveryTag : Nat
deriving DecidableEq

/-- The wire-format record built by `Session.Publish` (amqp.Publishing,
restricted to the fields session.go sets; `deliveryMode = 1` is
amqp.Transient). -/
structure Publishing where
  contentType : String
  deliveryMode : Nat
  priority : Nat
  body : List Nat
deriving DecidableEq

/-- Observable side effects of the embedded operations. -/
inductive Effect where
  | requestedChannel (role : String)
  | declared (role : String) (d : Declaration)
  | published (exchange routingKey : String) (mandatory immediate : Bool) (p : Publishing)
  | invokedHandler (h : Subscriber) (d : Delivery)
  | nacked (d : Delivery) (multiple requeue : Bool)
  | calledClose
  | loggedCloseError (e : String)
deriving DecidableEq

/-- A channel-like handle obtained from a transport.  `failingDecls` is the
oracle for declarations run on this handle (a declaration found in the list
fails with the paired error, every other declaration succeeds); `publishErr`
is the oracle for `ch.Publish`. -/
structure AmqpChannel where
  failingDecls : List (Declaration × String)
  publishErr : Option String
deriving DecidableEq

/-- Run one declaration against a channel handle (the spec's "function of a
channel handle to a success/failure result"). -/
def AmqpChannel.declResult (ch : AmqpChannel) (d : Declaration) : Option String :=
  mapLookup d ch.failingDecls

/-- A transport handle (amqp.Connection) together with the oracles for the
calls the embedded code makes on it. -/
structure AmqpConn where
  channelResult : Res String AmqpChannel
  closeErr : Option String
deriving DecidableEq

/-- The reconnecting connection wrapper (struct `Connection` in session.go):
broker address, current transport handle (`none` is Go `nil`), the
mutex-guarded `connected` flag, and whether the lifecycle context has been
cancelled.  The mutex itself needs no embedding: the embedded operations are
the mutex-serialised critical sections, applied atomically. -/
structure Connection where
  addr : String
  conn : Option AmqpConn
  connected : Bool
  ctxCancelled : Bool
deriving DecidableEq

/-- Source `NewConnection`: fresh wrapper, no transport, not connected, live context. -/
def NewConnection (addr : String) : Connection :=
  { addr := addr, conn := none, connected := false, ctxCancelled := false }

/-- Source `setConnected` (mutex-guarded write of the flag). -/
def Connection.setConnected (c : Connection) (status : Bool) : Connection :=
  { c with connected := status }

/-- Source `IsConnected` (mutex-guarded read of the flag). -/
def Connection.IsConnected (c : Connection) : Bool :=
  c.connected

/-- Source `changeConnection`: install a new transport handle (and renew the
close-notification channel, which needs no state here: close notifications
are delivered as events to the monitor, see `Connection.runLossEvents`). -/
def Connection.changeConnection (c : Connection) (h : AmqpConn) : Connection :=
  { c with conn := some h }

/-- Source `dial`, with the outcome of `amqp.Dial` supplied as the oracle `res`:
first `setConnected(false)`, then on success install the handle and
`setConnected(true)`; on failure return the error leaving the flag false. -/
def Connection.dial (c : Connection) (res : Res String AmqpConn) :
    Connection × Res String AmqpConn :=
  match res with
  | Res.err e => (c.setConnected false, Res.err e)
  | Res.ok h => (((c.setConnected false).changeConnection h).setConnected true, Res.ok h)

/-- The sequence of states `dial` passes through, in order: the state during
the dial attempt (flag cleared, old handle still present), then on success the
state with the new handle installed, then the state with the flag raised.
The last element is the state `dial` returns. -/
def Connection.dialStates (c : Connection) (res : Res String AmqpConn) : List Connection :=
  match res with
  | Res.err _ => [c.setConnected false]
  | Res.ok h => [c.setConnected false,
      (c.setConnected false).changeConnection h,
      ((c.setConnected false).changeConnection h).setConnected true]

/-- Source `Connect`: `c.conn, err = c.dial()`; on error the assignment leaves a nil
transport and the wrapped error is returned (errors.Wrap).  The watchdog
goroutine it starts is modelled by `Connection.runLossEvents`. -/
def Connection.Connect (c : Connection) (res : Res String AmqpConn) :
    Connection × Option String :=
  match c.dial res with
  | (c', Res.err e) => ({ c' with conn := none }, some ("unable to connect to amqp server: " ++ e))
  | (c', Res.ok _) => (c', none)

/-- Source `Channel`: under the mutex, `return c.conn.Channel()`.  With no transport
set (`c.conn` nil) this dereferences a nil pointer inside the amqp library and
panics; otherwise the transport's oracle decides. -/
def Connection.Channel (c : Connection) : Outcome String AmqpChannel :=
  match c.conn with
  | none => Outcome.panicked
  | some h =>
    match h.channelResult with
    | Res.ok ch => Outcome.ok ch
    | Res.err e => Outcome.err e

/-- Source `Shutdown`: `setConnected(false)`, cancel the context, then
`if c.IsConnected()` close the transport, logging (not returning) any close
error.  The embedding keeps the source's statement order exactly. -/
def Connection.Shutdown (c : Connection) : Connection × List Effect :=
  let c1 := c.setConnected false
  let c2 := { c1 with ctxCancelled := true }
  if c2.IsConnected then
    match c2.conn with
    | none => (c2, [])
    | some h =>
      match h.closeErr with
      | some e => (c2, [Effect.calledClose, Effect.loggedCloseError e])
      | none => (c2, [Effect.calledClose])
  else (c2, [])

/-- Source `reconnect`: loop of dial attempts; the oracle list gives the outcome of
each successive `amqp.Dial`.  Each iteration first checks cancellation, then
dials; on failure (`c.conn, err = c.dial()` assigns nil) sleeps and retries,
on success raises the flag again and returns.  An exhausted oracle list models
a loop still in flight (or one whose remaining attempts are not observed). -/
def Connection.reconnect (c : Connection) : List (Res String AmqpConn) → Connection
  | [] => c
  | res :: rest =>
    if c.ctxCancelled then c
    else
      match c.dial res with
      | (c', Res.ok _) => c'.setConnected true
      | (c', Res.err _) => Connection.reconnect { c' with conn := none } rest

/-- The watchdog (`monitorConnection`) over a sequence of connection-loss
events: each event is a close notification followed by the reconnect loop,
whose dial outcomes are the event's oracle list.  Cancellation makes the
monitor exit, leaving the state untouched. -/
def Connection.runLossEvents (c : Connection) : List (List (Res String AmqpConn)) → Connection
  | [] => c
  | dials :: rest =>
    Connection.runLossEvents (if c.ctxCancelled then c else c.reconnect dials) rest

/-- The value passed to `Session.Publish` as `event interface{}`: either a
value implementing `proto.Message` (carrying the outcome of `proto.Marshal`
on it as its oracle) or any other dynamic value. -/
inductive Event where
  | protoMsg (marshalResult : Res String (List Nat))
  | nonProto
deriving DecidableEq

/-- The session orchestrator (struct `Session` in session.go).  The logger and
the context/cancel pair carry no state the claims depend on and are omitted;
`consumerQueue = ""` is the source's sentinel for "no queue bound yet". -/
structure Session where
  addr : String
  subscribers : List (String × Subscriber)
  publishers : List (String × String)
  consumerQueue : String
  consumeConn : Option Connection
  produceConn : Option Connection
  consumerDecls : List Declaration
  producerDecls : List Declaration
deriving DecidableEq

/-- Source `NewSession`: empty maps, empty declaration lists, no connections. -/
def NewSession (addr : String) : Session :=
  { addr := addr, subscribers := [], publishers := [], consumerQueue := "",
    consumeConn := none, produceConn := none, consumerDecls := [], producerDecls := [] }

/-- Source `AddSubscription`: reject when a different consumer queue name is already
set, otherwise record the queue name, append the three declarations (exchange,
queue, binding) and register the handler under the routing key.  Returns the
updated session and the returned error (`none` is Go `nil`). -/
def Session.AddSubscription (s : Session) (exchangeName queueName routingKey : String)
    (handler : Subscriber) : Session × Option String :=
  if s.consumerQueue ≠ "" ∧ s.consumerQueue ≠ queueName then
    (s, some ("a consumer queue with name \x27" ++ s.consumerQueue ++ "\x27 has already been defined"))
  else
    ({ s with
        consumerQueue := queueName,
        consumerDecls := s.consumerDecls ++
          [Declaration.AutoExchange exchangeName,
           Declaration.AutoQueue queueName,
           Declaration.AutoBinding routingKey queueName exchangeName],
        subscribers := mapInsert routingKey handler s.subscribers }, none)

/-- Source `AddPublisher`: reject when the routing key is already registered,
otherwise append an exchange declaration and record the
routing-key-to-exchange mapping. -/
def Session.AddPublisher (s : Session) (exchangeName routingKey : String) :
    Session × Option String :=
  match mapLookup routingKey s.publishers with
  | some _ => (s, some "a publisher with that routingKey is already registered")
  | none =>
    ({ s with
        producerDecls := s.producerDecls ++ [Declaration.AutoExchange exchangeName],
        publishers := mapInsert routingKey exchangeName s.publishers }, none)

/-- Source `Publish`: resolve the exchange from the publishers map (error when
absent), assert the event to `proto.Message` (panic when it is not one),
marshal it, build the `Publishing` record, obtain a channel from the producer
connection (a nil `produceConn` panics on the method call through the nil
pointer), and publish.  The effect trace records the broker I/O performed. -/
def Session.Publish (s : Session) (routingKey : String) (event : Event) :
    Outcome String Unit × List Effect :=
  match mapLookup routingKey s.publishers with
  | none =>
    (Outcome.err ("no publisher with routingKey " ++ routingKey ++
      " registered, cannot resolve exchange"), [])
  | some exchange =>
    match event with
    | Event.nonProto => (Outcome.panicked, [])
    | Event.protoMsg mres =>
      match mres with
      | Res.err e => (Outcome.err e, [])
      | Res.ok bodyBytes =>
        let publishing : Publishing :=
          { contentType := "application/octet-stream", deliveryMode := 1,
            priority := 0, body := bodyBytes }
        match s.produceConn with
        | none => (Outcome.panicked, [])
        | some pc =>
          match pc.Channel with
          | Outcome.panicked => (Outcome.panicked, [])
          | Outcome.err e => (Outcome.err e, [Effect.requestedChannel "producer"])
          | Outcome.ok ch =>
            match ch.publishErr with
            | some e =>
              (Outcome.err e,
               [Effect.requestedChannel "producer",
                Effect.published exchange routingKey false false publishing])
            | none =>
              (Outcome.ok (),
               [Effect.requestedChannel "producer",
                Effect.published exchange routingKey false false publishing])

/-- The oracles for the dials `ensureConnections` may perform. -/
structure Env where
  consumerDial : Res String AmqpConn
  producerDial : Res String AmqpConn
deriving DecidableEq

/-- Producer half of `ensureConnections`. -/
def Session.ensureProducer (s : Session) (env : Env) : Session × Option String :=
  if s.producerDecls.length > 0 ∧ s.produceConn = none then
    match (NewConnection s.addr).Connect env.producerDial with
    | (c, some e) =>
      ({ s with produceConn := some c }, some ("failed to create amqp connection: " ++ e))
    | (c, none) => ({ s with produceConn := some c }, none)
  else (s, none)

/-- Source `ensureConnections`: for each role with pending declarations and no
connection yet, create one and `Connect()` it; a connect failure aborts with
an error. -/
def Session.ensureConnections (s : Session) (env : Env) : Session × Option String :=
  if s.consumerDecls.length > 0 ∧ s.consumeConn = none then
    match (NewConnection s.addr).Connect env.consumerDial with
    | (c, some e) =>
      ({ s with consumeConn := some c }, some ("failed to create amqp connection: " ++ e))
    | (c, none) => Session.ensureProducer { s with consumeConn := some c } env
  else Session.ensureProducer s env

/-- The `for _, declare := range decls` loop of one role block in `Declare`:
run the declarations in order against the channel, stopping at the first
failure with the source's error message.  Returns the trace of declarations
actually applied and the returned error. -/
def runDecls (ch : AmqpChannel) (role : String) : List Declaration → List Effect × Option String
  | [] => ([], none)
  | d :: rest =>
    match ch.declResult d with
    | some e => ([], some ("failed to declare for " ++ role ++ ": " ++ e))
    | none =>
      match runDecls ch role rest with
      | (effs, r) => (Effect.declared role d :: effs, r)

/-- One role block of `Declare`: skipped when the role has no declarations;
otherwise obtain a channel (`ch, _ := conn.Channel()` — the error is
discarded) and run the declarations.  A nil connection pointer, a nil
transport, or a discarded channel error followed by a declaration on the nil
channel all panic. -/
def declareBlock (conn : Option Connection) (role : String) (decls : List Declaration) :
    Outcome String Unit × List Effect :=
  if decls.isEmpty then (Outcome.ok (), [])
  else
    match conn with
    | none => (Outcome.panicked, [])
    | some c =>
      match c.Channel with
      | Outcome.panicked => (Outcome.panicked, [])
      | Outcome.err _ => (Outcome.panicked, [Effect.requestedChannel role])
      | Outcome.ok ch =>
        match runDecls ch role decls with
        | (effs, some e) => (Outcome.err e, Effect.requestedChannel role :: effs)
        | (effs, none) => (Outcome.ok (), Effect.requestedChannel role :: effs)

/-- Source `Declare`: ensure connections, then replay the consumer block and, only if
it succeeded, the producer block.  Returns the updated session, the result and
the effect trace. -/
def Session.Declare (s : Session) (env : Env) :
    Session × Outcome String Unit × List Effect :=
  match s.ensureConnections env with
  | (s', some e) => (s', Outcome.err e, [])
  | (s', none) =>
    match declareBlock s'.consumeConn "consumer" s'.consumerDecls with
    | (Outcome.ok _, effC) =>
      match declareBlock s'.produceConn "producer" s'.producerDecls with
      | (r, effP) => (s', r, effC ++ effP)
    | (r, effC) => (s', r, effC)

/-- Dispatch of one delivery inside the `for delivery := range deliveries`
loop of `Consume`: invoke the registered handler, or negative-acknowledge
(`Nack(false, false)`: not multiple, no requeue) when the routing key has no
handler. -/
def Session.processDelivery (s : Session) (d : Delivery) : List Effect :=
  match mapLookup d.routingKey s.subscribers with
  | some h => [Effect.invokedHandler h d]
  | none => [Effect.nacked d false false]

/-- The whole delivery feed of one `Consume` iteration: deliveries are
dispatched synchronously, in feed order. -/
def Session.consumeDeliveries (s : Session) : List Delivery → List Effect
  | [] => []
  | d :: rest => s.processDelivery d ++ s.consumeDeliveries rest

/-- Whether an external call succeeded. -/
def isOkB {α : Type} : Res String α → Bool
  | Res.ok _ => true
  | Res.err _ => false

/-- Specification-side reading of "the most recent resolved state" for the
connectivity flag: after a loss event whose reconnect loop attempted at least
one dial, the state is resolved to whether some attempt succeeded; a loss
event with no observed dial attempt leaves the previous resolved state. -/
def resolvedAfter (prev : Bool) : List (List (Res String AmqpConn)) → Bool
  | [] => prev
  | dials :: rest => resolvedAfter (if dials.isEmpty then prev else dials.any isOkB) rest

/-- The effect trace one role block of `Declare` produces when every one of
its declarations succeeds: nothing for a role without declarations, otherwise
one channel acquisition followed by the declarations in registration order. -/
def roleEffects (role : String) (ds : List Declaration) : List Effect :=
  if ds.isEmpty then [] else Effect.requestedChannel role :: ds.map (Effect.declared role)

/-- A channel handle on which every declaration and publish succeeds. -/
def chOkEx : AmqpChannel := { failingDecls := [], publishErr := none }

/-- A transport handle that hands out `chOkEx` and closes cleanly. -/
def connOkEx : AmqpConn := { channelResult := Res.ok chOkEx, closeErr := none }

/-- A connected wrapper holding the healthy transport `connOkEx`. -/
def liveConnEx : Connection :=
  { addr := "amqp://broker", conn := some connOkEx, connected := true, ctxCancelled := false }

/-- A wrapper with no transport handle set (Go `conn == nil`). -/
def bareConnEx : Connection :=
  { addr := "amqp://broker", conn := none, connected := false, ctxCancelled := false }

/-- The consumer-queue declaration used by the failing-declaration fixtures. -/
def declFailEx : Declaration := Declaration.AutoQueue "q1"

/-- A channel handle on which `declFailEx` fails and everything else succeeds. -/
def chFailEx : AmqpChannel :=
  { failingDecls := [(declFailEx, "queue q1 is locked")], publishErr := none }

/-- A transport handle that hands out the failing channel `chFailEx`. -/
def connFailEx : AmqpConn := { channelResult := Res.ok chFailEx, closeErr := none }

/-- A connected wrapper holding `connFailEx`. -/
def liveConnFailEx : Connection :=
  { addr := "amqp://broker", conn := some connFailEx, connected := true, ctxCancelled := false }

/-- A session with one publisher registered but no producer connection. -/
def sessNoProdEx : Session :=
  { NewSession "amqp://broker" with publishers := [("user.created", "events")] }

/-- A session obtained by registering a subscription whose queue name is the
empty string (the call succeeds: `""` is also the "unset" sentinel). -/
def sessEmptyQueueEx : Session :=
  ((NewSession "amqp://broker").AddSubscription "events" "" "user.created" 7).1

/-- A session ready for `Declare()`: both connections present, the consumer
side holding the channel on which its second declaration fails, the producer
side healthy. -/
def sessDeclEx : Session :=
  { addr := "amqp://broker",
    subscribers := [("user.created", 7)],
    publishers := [("user.created", "events")],
    consumerQueue := "q1",
    consumeConn := some liveConnFailEx,
    produceConn := some liveConnEx,
    consumerDecls := [Declaration.AutoExchange "events", declFailEx],
    producerDecls := [Declaration.AutoExchange "events"] }

/-- A session ready for a successful `Declare()`: both connections healthy. -/
def sessDeclOkEx : Session :=
  { sessDeclEx with consumeConn := some liveConnEx,
                    consumerDecls := [Declaration.AutoExchange "events",
                                      Declaration.AutoQueue "q1",
                                      Declaration.AutoBinding "user.created" "q1" "events"] }

/-- A dial-oracle environment (unused by `Declare` when both connections
already exist). -/
def envEx : Env := { consumerDial := Res.ok connOkEx, producerDial := Res.ok connOkEx }

/-- A delivery whose routing key has no registered handler in the fixtures. -/
def delivEx : Delivery := { routingKey := "order.created", body := [1], deliveryTag := 1 }

/-- A delivery routed to the handler registered in the fixtures. -/
def delivOkEx : Delivery := { routingKey := "user.created", body := [2], deliveryTag := 2 }

@[simp] theorem setConnected_connected (c : Connection) (b : Bool) :
    (c.setConnected b).connected = b := rfl

@[simp] theorem setConnected_conn (c : Connection) (b : Bool) :
    (c.setConnected b).conn = c.conn := rfl

@[simp] theorem setConnected_ctx (c : Connection) (b : Bool) :
    (c.setConnected b).ctxCancelled = c.ctxCancelled := rfl

@[simp] theorem changeConnection_connected (c : Connection) (h : AmqpConn) :
    (c.changeConnection h).connected = c.connected := rfl

@[simp] theorem changeConnection_conn (c : Connection) (h : AmqpConn) :
    (c.changeConnection h).conn = some h := rfl

@[simp] theorem changeConnection_ctx (c : Connection) (h : AmqpConn) :
    (c.changeConnection h).ctxCancelled = c.ctxCancelled := rfl

theorem mapLookup_mapInsert_self {κ α : Type} [DecidableEq κ] (k : κ) (v : α)
    (m : List (κ × α)) : mapLookup k (mapInsert k v m) = some v := by
  induction m with
  | nil => simp [mapLookup, mapInsert]
  | cons p rest ih =>
    obtain ⟨k', v'⟩ := p
    by_cases h : k' = k
    · simp [mapInsert, h, mapLookup]
    · simp [mapInsert, h, mapLookup, ih]

theorem runDecls_all_ok (ch : AmqpChannel) (role : String) (ds : List Declaration)
    (h : ∀ d ∈ ds, ch.declResult d = none) :
    runDecls ch role ds = (ds.map (Effect.declared role), none) := by
  induction ds with
  | nil => simp [runDecls]
  | cons d rest ih =>
    have hd : ch.declResult d = none := h d (by simp)
    have hr := ih (fun x hx => h x (by simp [hx]))
    simp [runDecls, hd, hr]

theorem runDecls_first_fail (ch : AmqpChannel) (role : String) (pre : List Declaration)
    (d : Declaration) (post : List Declaration) (e : String)
    (hpre : ∀ x ∈ pre, ch.declResult x = none) (hd : ch.declResult d = some e) :
    runDecls ch role (pre ++ d :: post) =
      (pre.map (Effect.declared role),
       some ("failed to declare for " ++ role ++ ": " ++ e)) := by
  induction pre with
  | nil => simp [runDecls, hd]
  | cons x rest ih =>
    have hx : ch.declResult x = none := hpre x (by simp)
    have hr := ih (fun y hy => hpre y (by simp [hy]))
    simp [runDecls, hx, hr]

theorem consumeDeliveries_append (s : Session) (l1 l2 : List Delivery) :
    s.consumeDeliveries (l1 ++ l2) = s.consumeDeliveries l1 ++ s.consumeDeliveries l2 := by
  induction l1 with
  | nil => simp [Session.consumeDeliveries]
  | cons d rest ih => simp [Session.consumeDeliveries, ih]

theorem reconnect_ctx (c : Connection) (ds : List (Res String AmqpConn)) :
    (c.reconnect ds).ctxCancelled = c.ctxCancelled := by
  induction ds generalizing c with
  | nil => rfl
  | cons r rest ih =>
    by_cases hc : c.ctxCancelled
    · simp [Connection.reconnect, hc]
    · cases r with
      | ok h => simp [Connection.reconnect, hc, Connection.dial]
      | err e => simp [Connection.reconnect, hc, Connection.dial, ih]

theorem reconnect_connected (c : Connection) (ds : List (Res String AmqpConn))
    (hc : c.ctxCancelled = false) :
    (c.reconnect ds).connected = if ds.isEmpty then c.connected else ds.any isOkB := by
  induction ds generalizing c with
  | nil => simp [Connection.reconnect]
  | cons r rest ih =>
    cases r with
    | ok h => simp [Connection.reconnect, hc, Connection.dial, isOkB]
    | err e =>
      have hrec := ih { (c.setConnected false) with conn := none } (by simp [hc])
      simp [Connection.reconnect, hc, Connection.dial, isOkB] at hrec ⊢
      rw [hrec]
      cases rest <;> simp

theorem runLossEvents_connected (c : Connection)
    (evts : List (List (Res String AmqpConn))) (hc : c.ctxCancelled = false) :
    (c.runLossEvents evts).connected = resolvedAfter c.connected evts := by
  induction evts generalizing c with
  | nil => rfl
  | cons dials rest ih =>
    have h1 : (c.reconnect dials).ctxCancelled = false := by
      rw [reconnect_ctx]; exact hc
    have h2 := reconnect_connected c dials hc
    simp [Connection.runLossEvents, hc, resolvedAfter]
    rw [ih _ h1, h2]
    cases dials <;> simp

theorem ensureConnections_existing (s : Session) (env : Env) (cc pc : Connection)
    (hcc : s.consumeConn = some cc) (hpc : s.produceConn = some pc) :
    s.ensureConnections env = (s, none) := by
  simp [Session.ensureConnections, Session.ensureProducer, hcc, hpc]

theorem declareBlock_ok (c : Connection) (role : String) (ds : List Declaration)
    (ch : AmqpChannel) (hch : c.Channel = Outcome.ok ch)
    (hall : ∀ d ∈ ds, ch.declResult d = none) :
    declareBlock (some c) role ds = (Outcome.ok (), roleEffects role ds) := by
  by_cases hds : ds.isEmpty
  · simp [declareBlock, hds, roleEffects]
  · simp [declareBlock, hds, hch, runDecls_all_ok ch role ds hall, roleEffects]

theorem declareBlock_fail (c : Connection) (role : String) (ch : AmqpChannel)
    (pre : List Declaration) (d : Declaration) (post : List Declaration) (e : String)
    (hch : c.Channel = Outcome.ok ch)
    (hpre : ∀ x ∈ pre, ch.declResult x = none) (hd : ch.declResult d = some e) :
    declareBlock (some c) role (pre ++ d :: post) =
      (Outcome.err ("failed to declare for " ++ role ++ ": " ++ e),
       Effect.requestedChannel role :: pre.map (Effect.declared role)) := by
  have hne : (pre ++ d :: post).isEmpty = false := by cases pre <;> simp
  simp [declareBlock, hne, hch, runDecls_first_fail ch role pre d post e hpre hd]

/-- Claim C1 (code bug): `Connection.Shutdown` is specified to close the
transport handle of a connected Connection, but the source clears the
`connected` flag before testing `IsConnected()`, so the close branch is dead
code: for every Connection — in particular one that is connected and holds a
transport handle, like `liveConnEx` — `Shutdown()` only clears the flag and
cancels the context, performs no `Close()` call and produces no effect. -/
theorem shutdown_close_branch_is_dead :
    (∀ c : Connection,
       c.Shutdown = ({ c with connected := false, ctxCancelled := true }, [])) ∧
    liveConnEx.connected = true ∧ liveConnEx.conn = some connOkEx ∧
    (liveConnEx.Shutdown).2 = [] ∧ Effect.calledClose ∉ (liveConnEx.Shutdown).2 := by
  refine ⟨fun c => rfl, rfl, rfl, rfl, by decide⟩

/-- Claim C2 (counterexample): `Channel()` on a Connection with no transport
handle does not fail with an error — it panics (nil-pointer dereference); and
`Publish` on a Session with a registered publisher for the routing key but no
producer Connection likewise panics instead of returning a hard error. -/
theorem channel_without_transport_counterexample :
    bareConnEx.conn = none ∧
    bareConnEx.Channel = Outcome.panicked ∧
    (¬ ∃ e, bareConnEx.Channel = Outcome.err e) ∧
    mapLookup "user.created" sessNoProdEx.publishers = some "events" ∧
    sessNoProdEx.produceConn = none ∧
    sessNoProdEx.Publish "user.created" (Event.protoMsg (Res.ok [1, 2])) =
      (Outcome.panicked, []) := by
  refine ⟨rfl, rfl, ?_, by decide, rfl, by decide⟩
  rintro ⟨e, he⟩
  rw [show bareConnEx.Channel = Outcome.panicked from rfl] at he
  exact Outcome.noConfusion he

/-- Claim C2 (amended): `Channel()` on a Connection with no transport handle
set panics (nil-pointer dereference) rather than returning an error, and
`Publish` on a Session with a registered publisher for the routing key but no
producer Connection panics rather than returning a hard error; in both cases
nothing is published and nothing is queued locally (empty effect trace). -/
theorem channel_without_transport_panics :
    (∀ c : Connection, c.conn = none → c.Channel = Outcome.panicked) ∧
    (∀ (s : Session) (rk ex : String) (bs : List Nat),
       mapLookup rk s.publishers = some ex → s.produceConn = none →
       s.Publish rk (Event.protoMsg (Res.ok bs)) = (Outcome.panicked, [])) := by
  constructor
  · intro c hc
    simp [Connection.Channel, hc]
  · intro s rk ex bs hpub hconn
    simp [Session.Publish, hpub, hconn]

/-- Witness for the amended C2 theorem at concrete inputs. -/
theorem channel_without_transport_panics_witness :
    bareConnEx.Channel = Outcome.panicked ∧
    sessNoProdEx.Publish "user.created" (Event.protoMsg (Res.ok [1])) =
      (Outcome.panicked, []) :=
  ⟨channel_without_transport_panics.1 bareConnEx rfl,
   channel_without_transport_panics.2 sessNoProdEx "user.created" "events" [1]
     (by decide) rfl⟩

/-- Claim C4 (counterexample): the source uses the empty string both as a
queue name and as the "no queue yet" sentinel.  Registering a subscription
with queue name `""` succeeds; a second `AddSubscription` with the different
queue name `"q2"` then also succeeds (returns nil) and mutates the session,
contradicting the claim for Q = `""`. -/
theorem addSubscription_second_queue_counterexample :
    ((NewSession "amqp://broker").AddSubscription "events" "" "user.created" 7).2 = none ∧
    sessEmptyQueueEx.consumerQueue = "" ∧
    mapLookup "user.created" sessEmptyQueueEx.subscribers = some 7 ∧
    (sessEmptyQueueEx.AddSubscription "events" "q2" "user.deleted" 8).2 = none ∧
    (sessEmptyQueueEx.AddSubscription "events" "q2" "user.deleted" 8).1 ≠ sessEmptyQueueEx := by
  refine ⟨by decide, by decide, by decide, by decide, by decide⟩

/-- Claim C4 (amended): for every Session whose already-registered consumer
queue name is nonempty, `AddSubscription` with a different queue name returns
the source's error and returns the session unchanged (consumer queue name,
subscriber map and declaration lists untouched). -/
theorem addSubscription_distinct_queue_rejected (s : Session)
    (ex q' rk : String) (h : Subscriber)
    (hq : s.consumerQueue ≠ "") (hne : s.consumerQueue ≠ q') :
    s.AddSubscription ex q' rk h =
      (s, some ("a consumer queue with name \x27" ++ s.consumerQueue ++
        "\x27 has already been defined")) := by
  simp [Session.AddSubscription, hq, hne]

/-- Witness for the amended C4 theorem at a concrete session bound to "q1". -/
theorem addSubscription_distinct_queue_rejected_witness :
    sessDeclEx.AddSubscription "events" "q2" "user.deleted" 8 =
      (sessDeclEx, some ("a consumer queue with name \x27" ++ "q1" ++
        "\x27 has already been defined")) :=
  addSubscription_distinct_queue_rejected sessDeclEx "events" "q2" "user.deleted" 8
    (by decide) (by decide)

/-- Claim C5: `Publish` for a routing key with no registered publisher returns
the routing error and performs no broker I/O at all (empty effect trace: no
channel obtained, nothing published), for every event value. -/
theorem publish_unregistered_key_fails (s : Session) (rk : String) (ev : Event)
    (h : mapLookup rk s.publishers = none) :
    s.Publish rk ev =
      (Outcome.err ("no publisher with routingKey " ++ rk ++
        " registered, cannot resolve exchange"), []) := by
  simp [Session.Publish, h]

/-- Witness for C5 on a fresh session with no publishers. -/
theorem publish_unregistered_key_fails_witness :
    (NewSession "amqp://broker").Publish "user.created" (Event.protoMsg (Res.ok [1])) =
      (Outcome.err ("no publisher with routingKey " ++ "user.created" ++
        " registered, cannot resolve exchange"), []) :=
  publish_unregistered_key_fails (NewSession "amqp://broker") "user.created"
    (Event.protoMsg (Res.ok [1])) (by decide)

/-- Claim C8: a second `AddPublisher` for an already-registered routing key
returns the source's error and leaves the session — in particular the
routing-key-to-exchange mapping recorded by the first call — unchanged. -/
theorem addPublisher_duplicate_rejected (s : Session) (ex0 ex1 rk : String)
    (h : mapLookup rk s.publishers = some ex0) :
    s.AddPublisher ex1 rk =
      (s, some "a publisher with that routingKey is already registered") ∧
    mapLookup rk (s.AddPublisher ex1 rk).1.publishers = some ex0 := by
  have h1 : s.AddPublisher ex1 rk =
      (s, some "a publisher with that routingKey is already registered") := by
    simp [Session.AddPublisher, h]
  exact ⟨h1, by rw [h1]; exact h⟩

/-- Witness for C8 at a session already publishing "user.created" to "events". -/
theorem addPublisher_duplicate_rejected_witness :
    sessNoProdEx.AddPublisher "other-exchange" "user.created" =
      (sessNoProdEx, some "a publisher with that routingKey is already registered") ∧
    mapLookup "user.created" (sessNoProdEx.AddPublisher "other-exchange" "user.created").1.publishers =
      some "events" :=
  addPublisher_duplicate_rejected sessNoProdEx "events" "other-exchange" "user.created"
    (by decide)

/-- Claim C9: for a routing key with a registered publisher, handing `Publish`
an event value that does not implement `proto.Message` hits the unchecked type
assertion `event.(proto.Message)` and panics — it neither returns an error nor
performs any broker I/O. -/
theorem publish_nonproto_panics (s : Session) (rk ex : String)
    (h : mapLookup rk s.publishers = some ex) :
    s.Publish rk Event.nonProto = (Outcome.panicked, []) := by
  simp [Session.Publish, h]

/-- Witness for C9 at a session publishing "user.created" to "events". -/
theorem publish_nonproto_panics_witness :
    sessNoProdEx.Publish "user.created" Event.nonProto = (Outcome.panicked, []) :=
  publish_nonproto_panics sessNoProdEx "user.created" "events" (by decide)

/-- Claim C10: `AddSubscription` with the already-bound queue name and a
routing key that already has a handler succeeds (returns nil), silently
replaces the handler for that routing key, and appends another exchange,
queue and binding declaration triple; the publishers map is untouched, and no
duplicate-key error is reported (unlike `AddPublisher`). -/
theorem addSubscription_duplicate_key_replaces (s : Session)
    (ex q rk : String) (h0 h1 : Subscriber)
    (hq : s.consumerQueue = q) (_hs : mapLookup rk s.subscribers = some h0) :
    (s.AddSubscription ex q rk h1).2 = none ∧
    (s.AddSubscription ex q rk h1).1.subscribers = mapInsert rk h1 s.subscribers ∧
    mapLookup rk (s.AddSubscription ex q rk h1).1.subscribers = some h1 ∧
    (s.AddSubscription ex q rk h1).1.consumerDecls =
      s.consumerDecls ++ [Declaration.AutoExchange ex, Declaration.AutoQueue q,
        Declaration.AutoBinding rk q ex] ∧
    (s.AddSubscription ex q rk h1).1.consumerQueue = q ∧
    (s.AddSubscription ex q rk h1).1.publishers = s.publishers := by
  simp [Session.AddSubscription, hq, mapLookup_mapInsert_self]

/-- Witness for C10: re-registering "user.created" on queue "q1" replaces
handler 7 with handler 9 and appends another declaration triple. -/
theorem addSubscription_duplicate_key_replaces_witness :
    (sessDeclEx.AddSubscription "events" "q1" "user.created" 9).2 = none ∧
    (sessDeclEx.AddSubscription "events" "q1" "user.created" 9).1.subscribers =
      mapInsert "user.created" 9 sessDeclEx.subscribers ∧
    mapLookup "user.created"
      (sessDeclEx.AddSubscription "events" "q1" "user.created" 9).1.subscribers = some 9 ∧
    (sessDeclEx.AddSubscription "events" "q1" "user.created" 9).1.consumerDecls =
      sessDeclEx.consumerDecls ++ [Declaration.AutoExchange "events",
        Declaration.AutoQueue "q1", Declaration.AutoBinding "user.created" "q1" "events"] ∧
    (sessDeclEx.AddSubscription "events" "q1" "user.created" 9).1.consumerQueue = "q1" ∧
    (sessDeclEx.AddSubscription "events" "q1" "user.created" 9).1.publishers =
      sessDeclEx.publishers :=
  addSubscription_duplicate_key_replaces sessDeclEx "events" "q1" "user.created" 7 9
    (by decide) (by decide)

/-- Claim C3: a single `Declare()` invocation replays every registered
declaration exactly once per role, in registration order (consumer block
before producer block); a failing declaration aborts all remaining
declarations of the invocation and `Declare()` returns an error naming the
role and carrying the failing declaration's own error. -/
theorem declare_replays_in_order (s : Session) (env : Env) (cc pc : Connection)
    (chC chP : AmqpChannel)
    (hcc : s.consumeConn = some cc) (hpc : s.produceConn = some pc)
    (hchc : cc.Channel = Outcome.ok chC) (hchp : pc.Channel = Outcome.ok chP) :
    ((∀ d ∈ s.consumerDecls, chC.declResult d = none) →
     (∀ d ∈ s.producerDecls, chP.declResult d = none) →
       s.Declare env = (s, Outcome.ok (),
         roleEffects "consumer" s.consumerDecls ++ roleEffects "producer" s.producerDecls)) ∧
    (∀ pre d post e, s.consumerDecls = pre ++ d :: post →
       (∀ x ∈ pre, chC.declResult x = none) → chC.declResult d = some e →
       s.Declare env = (s, Outcome.err ("failed to declare for consumer: " ++ e),
         Effect.requestedChannel "consumer" :: pre.map (Effect.declared "consumer"))) ∧
    (∀ pre d post e, (∀ x ∈ s.consumerDecls, chC.declResult x = none) →
       s.producerDecls = pre ++ d :: post →
       (∀ x ∈ pre, chP.declResult x = none) → chP.declResult d = some e →
       s.Declare env = (s, Outcome.err ("failed to declare for producer: " ++ e),
         roleEffects "consumer" s.consumerDecls ++
           Effect.requestedChannel "producer" :: pre.map (Effect.declared "producer"))) := by
  have hens := ensureConnections_existing s env cc pc hcc hpc
  refine ⟨?_, ?_, ?_⟩
  · intro hC hP
    have hb1 := declareBlock_ok cc "consumer" s.consumerDecls chC hchc hC
    have hb2 := declareBlock_ok pc "producer" s.producerDecls chP hchp hP
    simp [Session.Declare, hens, hcc, hpc, hb1, hb2]
  · intro pre d post e hdecls hpre hd
    have hb1 := declareBlock_fail cc "consumer" chC pre d post e hchc hpre hd
    have hstr : ("failed to declare for " ++ "consumer" ++ ": " : String) =
        "failed to declare for consumer: " := by decide
    rw [hstr] at hb1
    simp [Session.Declare, hens, hcc, hpc, hdecls, hb1]
  · intro pre d post e hC hdecls hpre hd
    have hb1 := declareBlock_ok cc "consumer" s.consumerDecls chC hchc hC
    have hb2 := declareBlock_fail pc "producer" chP pre d post e hchp hpre hd
    have hstr : ("failed to declare for " ++ "producer" ++ ": " : String) =
        "failed to declare for producer: " := by decide
    rw [hstr] at hb2
    simp [Session.Declare, hens, hcc, hpc, hdecls, hb1, hb2]

/-- Witness for C3: on `sessDeclEx` the first consumer declaration is applied,
the second fails, the invocation aborts (no producer declaration is applied)
and the error names the consumer role and the failing declaration's error. -/
theorem declare_replays_in_order_witness :
    sessDeclEx.Declare envEx =
      (sessDeclEx, Outcome.err ("failed to declare for consumer: " ++ "queue q1 is locked"),
       [Effect.requestedChannel "consumer",
        Effect.declared "consumer" (Declaration.AutoExchange "events")]) :=
  (declare_replays_in_order sessDeclEx envEx liveConnFailEx liveConnEx chFailEx chOkEx
      rfl rfl (by decide) (by decide)).2.1
    [Declaration.AutoExchange "events"] declFailEx [] "queue q1 is locked"
    (by decide) (by decide) (by decide)

/-- Claim C6: a delivery whose routing key has no registered handler is
negative-acknowledged with `requeue = false` (and `multiple = false`), no
handler is invoked for it, and the feed loop keeps dispatching the deliveries
around it unchanged. -/
theorem unroutable_delivery_nacked (s : Session) (d : Delivery)
    (h : mapLookup d.routingKey s.subscribers = none) :
    s.processDelivery d = [Effect.nacked d false false] ∧
    (∀ (h' : Subscriber) (d' : Delivery),
       Effect.invokedHandler h' d' ∉ s.processDelivery d) ∧
    (∀ pre post, s.consumeDeliveries (pre ++ d :: post) =
       s.consumeDeliveries pre ++ [Effect.nacked d false false] ++
         s.consumeDeliveries post) := by
  have h1 : s.processDelivery d = [Effect.nacked d false false] := by
    simp [Session.processDelivery, h]
  refine ⟨h1, ?_, ?_⟩
  · intro h' d'
    simp [h1]
  · intro pre post
    rw [consumeDeliveries_append]
    simp [Session.consumeDeliveries, h1, List.append_assoc]

/-- Witness for C6: on `sessDeclEx` (handler registered for "user.created"
only) the delivery with routing key "order.created" is nacked without requeue
and the surrounding deliveries are still dispatched. -/
theorem unroutable_delivery_nacked_witness :
    sessDeclEx.processDelivery delivEx = [Effect.nacked delivEx false false] ∧
    sessDeclEx.consumeDeliveries ([delivOkEx] ++ delivEx :: [delivOkEx]) =
      sessDeclEx.consumeDeliveries [delivOkEx] ++ [Effect.nacked delivEx false false] ++
        sessDeclEx.consumeDeliveries [delivOkEx] :=
  ⟨(unroutable_delivery_nacked sessDeclEx delivEx (by decide)).1,
   (unroutable_delivery_nacked sessDeclEx delivEx (by decide)).2.2 [delivOkEx] [delivOkEx]⟩

/-- Claim C7: `IsConnected()` reflects the most recent resolved state.  While
a dial is in flight (every state `dial` passes through except the returned
one) the flag is false; the state `dial` returns is connected exactly when the
dial succeeded, and then the new transport handle is installed; and over any
sequence of connection-loss events processed by the watchdog after an initial
`Connect`, the flag equals the specification-side `resolvedAfter` value. -/
theorem isConnected_reflects_resolved_state :
    (∀ (c : Connection) (res : Res String AmqpConn),
       ∀ s ∈ (c.dialStates res).dropLast, s.IsConnected = false) ∧
    (∀ (c : Connection) (res : Res String AmqpConn),
       ((c.dial res).1).IsConnected = isOkB res) ∧
    (∀ (c : Connection) (h : AmqpConn), ((c.dial (Res.ok h)).1).conn = some h) ∧
    (∀ (addr : String) (res : Res String AmqpConn)
       (evts : List (List (Res String AmqpConn))),
       ((((NewConnection addr).Connect res).1).runLossEvents evts).IsConnected =
         resolvedAfter (isOkB res) evts) := by
  refine ⟨?_, ?_, ?_, ?_⟩
  · intro c res s hs
    cases res with
    | ok h =>
      have hdl : (c.dialStates (Res.ok h)).dropLast =
          [c.setConnected false, (c.setConnected false).changeConnection h] := rfl
      rw [hdl] at hs
      simp at hs
      rcases hs with h1 | h1 <;> subst h1 <;> simp [Connection.IsConnected]
    | err e =>
      have hdl : (c.dialStates (Res.err e)).dropLast = ([] : List Connection) := rfl
      rw [hdl] at hs
      simp at hs
  · intro c res
    cases res <;> simp [Connection.dial, Connection.IsConnected, isOkB]
  · intro c h
    simp [Connection.dial]
  · intro addr res evts
    cases res with
    | ok h =>
      exact runLossEvents_connected (((NewConnection addr).Connect (Res.ok h)).1) evts rfl
    | err e =>
      exact runLossEvents_connected (((NewConnection addr).Connect (Res.err e)).1) evts rfl

/-- Witness for C7 at concrete inputs: the in-flight dial state is not
connected; a successful dial resolves to connected with the handle installed;
an initial failed connect followed by one loss event whose reconnect loop
fails once and then succeeds resolves to connected. -/
theorem isConnected_reflects_resolved_state_witness :
    (bareConnEx.setConnected false).IsConnected = false ∧
    ((bareConnEx.dial (Res.ok connOkEx)).1).IsConnected = isOkB (Res.ok connOkEx) ∧
    ((bareConnEx.dial (Res.ok connOkEx)).1).conn = some connOkEx ∧
    ((((NewConnection "amqp://broker").Connect (Res.err "connection refused")).1).runLossEvents
        [[Res.err "connection refused", Res.ok connOkEx]]).IsConnected =
      resolvedAfter (isOkB (Res.err "connection refused" : Res String AmqpConn))
        [[Res.err "connection refused", Res.ok connOkEx]] :=
  ⟨isConnected_reflects_resolved_state.1 bareConnEx (Res.ok connOkEx)
     (bareConnEx.setConnected false) (by decide),
   isConnected_reflects_resolved_state.2.1 bareConnEx (Res.ok connOkEx),
   isConnected_reflects_resolved_state.2.2.1 bareConnEx connOkEx,
   isConnected_reflects_resolved_state.2.2.2 "amqp://broker" (Res.err "connection refused")
     [[Res.err "connection refused", Res.ok connOkEx]]⟩
